import Mathlib

set_option maxHeartbeats 1000000
set_option linter.unusedVariables false

/-!
Verification development for the UDPv4 transport layer of a publish/subscribe
protocol stack (source files UDPv4Transport.cpp and ReceiverResource.cpp).

Shallow embedding conventions:
- the socket pools (std::map members) are association lists with the same
  lookup/erase/insert semantics;
- the operating system (the set of local IPv4 interfaces, the outcome of each
  socket bind, the outcome of a multicast group join, the completion of an
  asynchronous receive) is an explicit environment record passed to each
  operation;
- socket side effects (group joins, send_to calls, submitted asynchronous
  receives) are recorded as explicit traces in the result of each operation;
- a C++ call that can let a boost system_error escape is modelled with an
  outcome type distinguishing a returned boolean from a thrown exception.
-/

/-- Association-list lookup: first entry with the given key (std map find). -/
def findKey {κ α : Type} [DecidableEq κ] : List (κ × α) → κ → Option α
  | [], _ => none
  | (k2, v) :: rest, k => if k2 = k then some v else findKey rest k

/-- Association-list membership (std map find compared against end). -/
def hasKey {κ α : Type} [DecidableEq κ] (m : List (κ × α)) (k : κ) : Bool :=
  (findKey m k).isSome

/-- Association-list erase of every entry with the given key (std map erase). -/
def eraseKey {κ α : Type} [DecidableEq κ] (m : List (κ × α)) (k : κ) : List (κ × α) :=
  m.filter (fun e => decide (e.1 ≠ k))

/-- Insert that keeps an existing entry untouched (std map emplace / insert). -/
def insertNew {κ α : Type} [DecidableEq κ] (m : List (κ × α)) (k : κ) (v : α) :
    List (κ × α) :=
  if hasKey m k then m else m ++ [(k, v)]

/-- Store a value under a key, replacing any previous entry (assignment through
std map operator[]). -/
def setEntry {κ α : Type} [DecidableEq κ] (m : List (κ × α)) (k : κ) (v : α) :
    List (κ × α) :=
  eraseKey m k ++ [(k, v)]

/-! ## Locator (data model)

A Locator is a transport-kind-tagged network address: kind, 16-byte address,
32-bit port. Only the UDPv4 kind (value 1) is supported by this transport. -/

/-- Locator: kind tag, port and 16-byte address (Locator_t). The port is a
32-bit unsigned value and each address entry an 8-bit byte; the operations
modelled here never overflow them, so plain naturals are used. -/
structure Locator where
  kind : Int
  port : Nat
  address : List Nat
  deriving DecidableEq, Repr

/-- The locator kind tag of UDPv4 (LOCATOR_KIND_UDPv4). -/
def LOCATOR_KIND_UDPv4 : Int := 1

/-- UDPv4Transport::IsLocatorSupported: the kind must be UDPv4. -/
def IsLocatorSupported (locator : Locator) : Bool :=
  locator.kind = LOCATOR_KIND_UDPv4

/-- IsMulticastAddress (file-static helper): address byte 12 lies in
[224, 239]. -/
def IsMulticastAddress (locator : Locator) : Bool :=
  decide (224 ≤ locator.address.getD 12 0 ∧ locator.address.getD 12 0 ≤ 239)

/-- Modelled from the spec: the Locator data type lives in a header that is not
part of the two source files, which only give its shape "{kind, address[16
bytes], port: u32}" with UDPv4 the only supported kind. The C++ statement
"return false;" inside the Locator-returning RemoteToMainLocal converts the
boolean through the integral Locator_t port constructor, yielding the default
locator of the supported UDPv4 kind with port 0 and an all-zero address. -/
def boolToLocator (b : Bool) : Locator :=
  { kind := LOCATOR_KIND_UDPv4, port := if b then 1 else 0,
    address := List.replicate 16 0 }

/-- UDPv4Transport::RemoteToMainLocal: bail out with a bool-converted locator
when the remote kind is unsupported, otherwise copy the remote and zero the
address bytes. -/
def RemoteToMainLocal (remote : Locator) : Locator :=
  if !(IsLocatorSupported remote) then boolToLocator false
  else { remote with address := List.replicate 16 0 }

/-! ## UDPv4 transport state and environment -/

/-- A local IPv4 interface address, as its four bytes (boost ip address_v4). -/
abbrev IPv4 := List Nat

/-- The wildcard address (ip address_v4 any). -/
def anyAddr : IPv4 := [0, 0, 0, 0]

/-- The four IPv4 bytes of a locator (locator.to_IP4_string parsed back by
from_string): address bytes 12 to 15. -/
def locatorIP4 (locator : Locator) : IPv4 :=
  locator.address.drop 12

/-- A bound UDP socket, identified by the local address and port it was bound
to (boost ip udp socket). -/
structure Socket where
  addr : IPv4
  port : Nat
  deriving DecidableEq, Repr

/-- Operating-system environment: which IPv4 interfaces the host has (GetIP4s)
and whether each socket-level call succeeds or throws a system_error. -/
structure OSEnv where
  sysInterfaces : List IPv4
  outputBindOk : IPv4 → Nat → Bool
  inputBindOk : Nat → Bool
  joinOk : Bool

/-- UDPv4Transport state: configured buffer bounds, topology flag, interface
whitelist, and the three socket pools. -/
structure UDPv4Transport where
  mSendBufferSize : Nat
  mReceiveBufferSize : Nat
  mGranularMode : Bool
  mInterfaceWhiteList : List IPv4
  mOutputSockets : List (Nat × List Socket)
  mGranularOutputSockets : List (Locator × Socket)
  mInputSockets : List (Nat × Socket)
  deriving DecidableEq, Repr

/-- UDPv4Transport::IsInterfaceAllowed: empty whitelist allows all; the
wildcard address is always allowed; otherwise the address must be listed. -/
def UDPv4Transport.IsInterfaceAllowed (t : UDPv4Transport) (ip : IPv4) : Bool :=
  if t.mInterfaceWhiteList.isEmpty then true
  else if ip = anyAddr then true
  else t.mInterfaceWhiteList.contains ip

/-- UDPv4Transport::IsInputChannelOpen: supported kind and input pool
membership keyed by port. -/
def UDPv4Transport.IsInputChannelOpen (t : UDPv4Transport) (locator : Locator) : Bool :=
  IsLocatorSupported locator && hasKey t.mInputSockets locator.port

/-- UDPv4Transport::IsOutputChannelOpen: supported kind and output pool
membership, keyed by full locator in granular mode and by port otherwise. -/
def UDPv4Transport.IsOutputChannelOpen (t : UDPv4Transport) (locator : Locator) : Bool :=
  if !(IsLocatorSupported locator) then false
  else if t.mGranularMode then hasKey t.mGranularOutputSockets locator
  else hasKey t.mOutputSockets locator.port

/-- UDPv4Transport::DoLocatorsMatch: full equality in granular mode, port-only
equality in shared mode. -/
def UDPv4Transport.DoLocatorsMatch (t : UDPv4Transport) (left right : Locator) : Bool :=
  if t.mGranularMode then left = right else left.port = right.port

/-- The loop body of OpenAndBindOutputSockets over the host interfaces: each
allowed interface gets a bound socket; the first failing bind throws, which
aborts the loop (modelled as none). -/
def bindAllowedSockets (env : OSEnv) (t : UDPv4Transport) (port : Nat) :
    List IPv4 → Option (List Socket)
  | [] => some []
  | ip :: rest =>
      if t.IsInterfaceAllowed ip then
        if env.outputBindOk ip port then
          (bindAllowedSockets env t port rest).map (fun socks => ⟨ip, port⟩ :: socks)
        else none
      else bindAllowedSockets env t port rest

/-- UDPv4Transport::OpenAndBindOutputSockets (shared-by-port topology): with an
empty whitelist bind one wildcard socket; otherwise bind one socket per allowed
host interface. The operator[] that creates the pool entry sits inside the
IsInterfaceAllowed guard, so when no host interface is allowed the loop never
touches the map: the call returns true but leaves no entry. A bind failure is
caught and the pool entry for the port is erased (the catch clause removes
whatever partial entry operator[] and the completed push_backs left behind). -/
def UDPv4Transport.OpenAndBindOutputSockets (t : UDPv4Transport) (env : OSEnv)
    (port : Nat) : Bool × UDPv4Transport :=
  if t.mInterfaceWhiteList.isEmpty then
    if env.outputBindOk anyAddr port then
      let pool := setEntry t.mOutputSockets port
        ((findKey t.mOutputSockets port).getD [] ++ [⟨anyAddr, port⟩])
      (true, { t with mOutputSockets := pool })
    else
      (false, { t with mOutputSockets := eraseKey t.mOutputSockets port })
  else
    match bindAllowedSockets env t port env.sysInterfaces with
    | some socks =>
        if socks = [] then (true, t)
        else
          let pool := setEntry t.mOutputSockets port
            ((findKey t.mOutputSockets port).getD [] ++ socks)
          (true, { t with mOutputSockets := pool })
    | none =>
        (false, { t with mOutputSockets := eraseKey t.mOutputSockets port })

/-- UDPv4Transport::OpenAndBindGranularOutputSocket: refuse a non-whitelisted
interface; otherwise bind one socket to the locator address and port, erasing
the (never inserted) entry when the bind throws. -/
def UDPv4Transport.OpenAndBindGranularOutputSocket (t : UDPv4Transport) (env : OSEnv)
    (locator : Locator) : Bool × UDPv4Transport :=
  let ip := locatorIP4 locator
  if !(t.IsInterfaceAllowed ip) then (false, t)
  else if env.outputBindOk ip locator.port then
    let pool := insertNew t.mGranularOutputSockets locator ⟨ip, locator.port⟩
    (true, { t with mGranularOutputSockets := pool })
  else
    (false, { t with mGranularOutputSockets := eraseKey t.mGranularOutputSockets locator })

/-- UDPv4Transport::OpenOutputChannel: reject already-open or unsupported
locators, then delegate to the active topology. -/
def UDPv4Transport.OpenOutputChannel (t : UDPv4Transport) (env : OSEnv)
    (locator : Locator) : Bool × UDPv4Transport :=
  if t.IsOutputChannelOpen locator || !(IsLocatorSupported locator) then (false, t)
  else if t.mGranularMode then t.OpenAndBindGranularOutputSocket env locator
  else t.OpenAndBindOutputSockets env locator.port

/-- UDPv4Transport::OpenAndBindInputSockets: emplace one bound socket under the
port; a bind failure is caught and the entry erased. -/
def UDPv4Transport.OpenAndBindInputSockets (t : UDPv4Transport) (env : OSEnv)
    (port : Nat) : Bool × UDPv4Transport :=
  if env.inputBindOk port then
    (true, { t with mInputSockets := insertNew t.mInputSockets port ⟨anyAddr, port⟩ })
  else
    (false, { t with mInputSockets := eraseKey t.mInputSockets port })

/-- Outcome of a C++ call that can either return a boolean or let an exception
escape. -/
inductive CallOutcome
  | returns (b : Bool)
  | throws
  deriving DecidableEq, Repr

/-- Result of OpenInputChannel: outcome, final transport state, and the list of
locators on which a multicast group join was attempted. -/
structure OpenInResult where
  outcome : CallOutcome
  state : UDPv4Transport
  joins : List Locator
  deriving DecidableEq, Repr

/-- UDPv4Transport::OpenInputChannel: reject unsupported locators; bind the
input socket only when the channel is not yet open; then, if the locator is in
the multicast range and the channel is (now) open, join the multicast group on
the pooled socket. The join is a bare set_option: its failure is not consulted
for the return value but throws out of the call (there is no try/catch in this
function). -/
def UDPv4Transport.OpenInputChannel (t : UDPv4Transport) (env : OSEnv)
    (locator : Locator) : OpenInResult :=
  if !(IsLocatorSupported locator) then ⟨.returns false, t, []⟩
  else
    let r :=
      if !(t.IsInputChannelOpen locator) then t.OpenAndBindInputSockets env locator.port
      else (false, t)
    if IsMulticastAddress locator && r.2.IsInputChannelOpen locator then
      if env.joinOk then ⟨.returns r.1, r.2, [locator]⟩
      else ⟨.throws, r.2, [locator]⟩
    else ⟨.returns r.1, r.2, []⟩

/-- UDPv4Transport::CloseInputChannel: refuse when not open; otherwise cancel
and close the pooled socket and erase the entry. -/
def UDPv4Transport.CloseInputChannel (t : UDPv4Transport) (locator : Locator) :
    Bool × UDPv4Transport :=
  if !(t.IsInputChannelOpen locator) then (false, t)
  else (true, { t with mInputSockets := eraseKey t.mInputSockets locator.port })

/-- UDPv4Transport::CloseOutputChannel: refuse when not open; otherwise cancel
and close every pooled socket of the channel key and erase the entry. -/
def UDPv4Transport.CloseOutputChannel (t : UDPv4Transport) (locator : Locator) :
    Bool × UDPv4Transport :=
  if !(t.IsOutputChannelOpen locator) then (false, t)
  else if t.mGranularMode then
    (true, { t with mGranularOutputSockets := eraseKey t.mGranularOutputSockets locator })
  else
    (true, { t with mOutputSockets := eraseKey t.mOutputSockets locator.port })

/-- Send-side environment: whether send_to on a given socket succeeds
(SendThroughSocket catches its exception and reports false). -/
structure SendEnv where
  sendOk : Socket → Bool

/-- Result of Send: returned boolean and the sockets send_to was attempted
on. -/
structure SendResult where
  ret : Bool
  sentThrough : List Socket
  deriving DecidableEq, Repr

/-- UDPv4Transport::Send: reject when the output channel is not open or the
size exceeds the configured send bound, before any socket operation; otherwise
fan out over the channel sockets (one in granular mode), OR-ing the per-socket
outcomes of SendThroughSocket. -/
def UDPv4Transport.Send (t : UDPv4Transport) (env : SendEnv) (sendBufferSize : Nat)
    (localLocator remoteLocator : Locator) : SendResult :=
  if !(t.IsOutputChannelOpen localLocator) || decide (sendBufferSize > t.mSendBufferSize) then
    ⟨false, []⟩
  else if t.mGranularMode then
    match findKey t.mGranularOutputSockets localLocator with
    | some s => ⟨env.sendOk s, [s]⟩
    | none => ⟨false, []⟩
  else
    let sockets := (findKey t.mOutputSockets localLocator.port).getD []
    ⟨sockets.any env.sendOk, sockets⟩

/-- A UDP endpoint as reported by an asynchronous receive completion. -/
structure Endpoint where
  addr4 : IPv4
  port : Nat
  deriving DecidableEq, Repr

/-- Receive-side environment: how the single asynchronous receive completes
(error or success, byte count, sender endpoint). -/
structure ReceiveEnv where
  success : Bool
  bytes : Nat
  sender : Endpoint

/-- EndpointToLocator (file-static helper): overwrite the locator port with
the endpoint port and copy the four endpoint address bytes into address bytes
12 to 15, leaving kind and address bytes 0 to 11 untouched. -/
def EndpointToLocator (e : Endpoint) (locator : Locator) : Locator :=
  { locator with port := e.port, address := locator.address.take 12 ++ e.addr4 }

/-- Result of Receive: returned boolean, the two out-parameters, and the ports
on which an asynchronous receive was submitted. -/
structure ReceiveResult where
  ret : Bool
  outSize : Nat
  outRemote : Locator
  submitted : List Nat
  deriving DecidableEq, Repr

/-- UDPv4Transport::Receive: fail fast (leaving both out-parameters untouched,
before any socket operation) when the input channel is not open or the capacity
is below the configured receive bound; re-check openness under the lock; then
submit one asynchronous receive and block. On completion success the size and
remote locator out-parameters are filled; on completion error the size is
zeroed. The out-parameters receiveBufferSize and remoteLocator enter with the
caller-visible prior values sizeIn and remoteIn. -/
def UDPv4Transport.Receive (t : UDPv4Transport) (env : ReceiveEnv)
    (receiveBufferCapacity sizeIn : Nat) (localLocator remoteIn : Locator) : ReceiveResult :=
  if !(t.IsInputChannelOpen localLocator) ||
      decide (receiveBufferCapacity < t.mReceiveBufferSize) then
    ⟨false, sizeIn, remoteIn, []⟩
  else if !(t.IsInputChannelOpen localLocator) then
    ⟨false, sizeIn, remoteIn, []⟩
  else if env.success then
    ⟨true, env.bytes, EndpointToLocator env.sender remoteIn, [localLocator.port]⟩
  else
    ⟨false, 0, remoteIn, [localLocator.port]⟩

/-! ## Receiver resource -/

/-- ReceiverResource: validity flag and the channel its three closures were
bound to (none when construction failed and the default-constructed closures
stayed empty). -/
structure ReceiverResource where
  mValid : Bool
  boundChannel : Option Locator
  deriving DecidableEq, Repr

/-- ReceiverResource::ReceiverResource: mValid takes the result of the
transport OpenInputChannel call (passed in here); on failure the constructor
returns early with the closures unbound, otherwise they are bound to the
(transport, locator) pair. -/
def makeReceiverResource (openResult : Bool) (locator : Locator) : ReceiverResource :=
  if openResult then ⟨true, some locator⟩ else ⟨false, none⟩

/-- Result of ReceiverResource::Receive: returned boolean, out-parameters, and
the channels on which the transport Receive was invoked. -/
structure ResourceReceiveResult where
  ret : Bool
  outSize : Nat
  outOrigin : Locator
  forwarded : List Locator
  deriving DecidableEq, Repr

/-- ReceiverResource::Receive: empty closure returns false without invoking the
transport; otherwise forward to the bound transport channel. -/
def ReceiverResource.Receive (res : ReceiverResource) (t : UDPv4Transport)
    (env : ReceiveEnv) (receiveBufferCapacity sizeIn : Nat) (originIn : Locator) :
    ResourceReceiveResult :=
  match res.boundChannel with
  | none => ⟨false, sizeIn, originIn, []⟩
  | some l =>
      let r := t.Receive env receiveBufferCapacity sizeIn l originIn
      ⟨r.ret, r.outSize, r.outRemote, [l]⟩

/-- ReceiverResource::SupportsLocator: empty closure returns false; otherwise
forward to DoLocatorsMatch against the bound locator. -/
def ReceiverResource.SupportsLocator (res : ReceiverResource) (t : UDPv4Transport)
    (candidate : Locator) : Bool :=
  match res.boundChannel with
  | none => false
  | some l => t.DoLocatorsMatch l candidate

/-- ReceiverResource::Abort: run the Cleanup closure (a CloseInputChannel on
the bound locator) if it is bound; the closure is not cleared afterwards. -/
def ReceiverResource.Abort (res : ReceiverResource) (t : UDPv4Transport) : UDPv4Transport :=
  match res.boundChannel with
  | none => t
  | some l => (t.CloseInputChannel l).2

/-- The ReceiverResource destructor body: identical to Abort (runs Cleanup if
bound). -/
def ReceiverResource.destroy (res : ReceiverResource) (t : UDPv4Transport) : UDPv4Transport :=
  match res.boundChannel with
  | none => t
  | some l => (t.CloseInputChannel l).2

/-! ## Spec-side definitions used by amended claims -/

/-- Spec-side description of the shared-mode output sockets created for a
port: one wildcard socket when the whitelist is empty, otherwise one socket per
host interface that passes IsInterfaceAllowed. -/
def expectedSharedOutputSockets (env : OSEnv) (t : UDPv4Transport) (port : Nat) :
    List Socket :=
  if t.mInterfaceWhiteList.isEmpty then [⟨anyAddr, port⟩]
  else (env.sysInterfaces.filter (fun ip => t.IsInterfaceAllowed ip)).map
    (fun ip => ⟨ip, port⟩)

/-- Whether the shared-mode output path hits an OS bind error: the wildcard
bind fails (empty whitelist), or some allowed host interface fails to bind. -/
def sharedBindErrorOccurs (env : OSEnv) (t : UDPv4Transport) (port : Nat) : Bool :=
  if t.mInterfaceWhiteList.isEmpty then !(env.outputBindOk anyAddr port)
  else env.sysInterfaces.any (fun ip => t.IsInterfaceAllowed ip && !(env.outputBindOk ip port))

/-- Whether opening an output channel for the locator hits an OS bind error on
the active topology path. -/
def outputBindErrorOccurs (env : OSEnv) (t : UDPv4Transport) (locator : Locator) : Bool :=
  if t.mGranularMode then
    t.IsInterfaceAllowed (locatorIP4 locator) &&
      !(env.outputBindOk (locatorIP4 locator) locator.port)
  else sharedBindErrorOccurs env t locator.port

/-! ## Concrete inputs used by witnesses and counterexamples -/

/-- An environment where every OS call succeeds and the host has the two
interfaces 10.0.0.1 and 10.0.0.2. -/
def envAllOk : OSEnv :=
  { sysInterfaces := [[10, 0, 0, 1], [10, 0, 0, 2]]
    outputBindOk := fun _ _ => true
    inputBindOk := fun _ => true
    joinOk := true }

/-- An environment where the host has only the interface 10.0.0.1 (every OS
call succeeds). -/
def envOneInterface : OSEnv :=
  { sysInterfaces := [[10, 0, 0, 1]]
    outputBindOk := fun _ _ => true
    inputBindOk := fun _ => true
    joinOk := true }

/-- An environment where binds succeed but the multicast group join fails
(set_option throws). -/
def envJoinFails : OSEnv :=
  { sysInterfaces := [[10, 0, 0, 1]]
    outputBindOk := fun _ _ => true
    inputBindOk := fun _ => true
    joinOk := false }

/-- An environment where every output bind fails. -/
def envBindFails : OSEnv :=
  { sysInterfaces := [[10, 0, 0, 1], [10, 0, 0, 2]]
    outputBindOk := fun _ _ => false
    inputBindOk := fun _ => false
    joinOk := true }

/-- A freshly constructed shared-mode transport with no whitelist (default
descriptor: both buffer bounds 65536). -/
def tFresh : UDPv4Transport :=
  { mSendBufferSize := 65536, mReceiveBufferSize := 65536, mGranularMode := false
    mInterfaceWhiteList := [], mOutputSockets := [], mGranularOutputSockets := []
    mInputSockets := [] }

/-- A freshly constructed shared-mode transport whose whitelist has the two
entries 10.0.0.1 and 10.0.0.2. -/
def tWhitelist2 : UDPv4Transport :=
  { tFresh with mInterfaceWhiteList := [[10, 0, 0, 1], [10, 0, 0, 2]] }

/-- A concrete supported unicast locator on port 7400 (address 192.168.1.5). -/
def locU : Locator :=
  ⟨1, 7400, [0, 0, 0, 0, 0, 0, 0, 0, 0, 0, 0, 0, 192, 168, 1, 5]⟩

/-- A concrete supported multicast locator on port 7401 (address
239.255.0.1, byte 12 = 239). -/
def locM : Locator :=
  ⟨1, 7401, [0, 0, 0, 0, 0, 0, 0, 0, 0, 0, 0, 0, 239, 255, 0, 1]⟩

/-- A shared-mode transport with the input channel of locM open and the output
channel of locU open (the states reached by binding those channels). -/
def tOpenBoth : UDPv4Transport :=
  { tFresh with
    mInputSockets := [(7401, ⟨anyAddr, 7401⟩)]
    mOutputSockets := [(7400, [⟨anyAddr, 7400⟩])] }

/-! # Theorems -/

/-! ## Association-list lemmas -/

theorem findKey_append {κ α : Type} [DecidableEq κ] (m1 m2 : List (κ × α)) (k : κ) :
    findKey (m1 ++ m2) k =
      match findKey m1 k with
      | some v => some v
      | none => findKey m2 k := by
  induction m1 with
  | nil => simp [findKey]
  | cons e rest ih =>
      obtain ⟨k2, v⟩ := e
      by_cases h : k2 = k <;> simp [findKey, h, ih]

theorem findKey_eraseKey {κ α : Type} [DecidableEq κ] (m : List (κ × α)) (k : κ) :
    findKey (eraseKey m k) k = none := by
  induction m with
  | nil => simp [eraseKey, findKey]
  | cons e rest ih =>
      obtain ⟨k2, v⟩ := e
      by_cases h : k2 = k <;> simp [eraseKey, findKey, h] at ih ⊢ <;> simpa [eraseKey] using ih

theorem eraseKey_of_not_hasKey {κ α : Type} [DecidableEq κ] (m : List (κ × α)) (k : κ)
    (h : hasKey m k = false) : eraseKey m k = m := by
  induction m with
  | nil => rfl
  | cons e rest ih =>
      obtain ⟨k2, v⟩ := e
      by_cases hk : k2 = k
      · simp [hasKey, findKey, hk] at h
      · simp [hasKey, findKey, hk] at h
        simp [eraseKey, hk] at ih ⊢
        exact ih (by simpa [hasKey] using h)

theorem hasKey_setEntry_self {κ α : Type} [DecidableEq κ] (m : List (κ × α)) (k : κ) (v : α) :
    hasKey (setEntry m k v) k = true := by
  simp [hasKey, setEntry, findKey_append, findKey_eraseKey, findKey]

theorem findKey_setEntry_self {κ α : Type} [DecidableEq κ] (m : List (κ × α)) (k : κ) (v : α) :
    findKey (setEntry m k v) k = some v := by
  simp [setEntry, findKey_append, findKey_eraseKey, findKey]

theorem hasKey_insertNew_self {κ α : Type} [DecidableEq κ] (m : List (κ × α)) (k : κ) (v : α) :
    hasKey (insertNew m k v) k = true := by
  by_cases h : hasKey m k = true
  · simp [insertNew, h]
  · have hf : findKey m k = none :=
      Option.not_isSome_iff_eq_none.mp (by simpa [hasKey] using h)
    simp [insertNew, h, hasKey, findKey_append, hf, findKey]

theorem hasKey_eraseKey_self {κ α : Type} [DecidableEq κ] (m : List (κ × α)) (k : κ) :
    hasKey (eraseKey m k) k = false := by
  simp [hasKey, findKey_eraseKey]

/-! ## Claim C5 -/

/-- C5: for an open output channel, Send with a size strictly above the
configured send bound returns false with no socket operation attempted; for an
open input channel, Receive with a capacity strictly below the configured
receive bound returns false immediately with no socket operation attempted
(and the out-parameters untouched). -/
theorem send_receive_size_bounds_rejected
    (t : UDPv4Transport) (senv : SendEnv) (renv : ReceiveEnv)
    (size cap sizeIn : Nat) (lOut rem lIn rIn : Locator)
    (hOpenOut : t.IsOutputChannelOpen lOut = true)
    (hSize : size > t.mSendBufferSize)
    (hOpenIn : t.IsInputChannelOpen lIn = true)
    (hCap : cap < t.mReceiveBufferSize) :
    t.Send senv size lOut rem = ⟨false, []⟩ ∧
    t.Receive renv cap sizeIn lIn rIn = ⟨false, sizeIn, rIn, []⟩ := by
  constructor
  · simp [UDPv4Transport.Send, hSize]
  · simp [UDPv4Transport.Receive, hCap]

/-- C5 witness: on a transport with an open output channel (port 7400) and an
open input channel (port 7401), a 70000-byte send and a 100-byte-capacity
receive are both rejected without socket operations. -/
theorem send_receive_size_bounds_rejected_witness :
    tOpenBoth.IsOutputChannelOpen locU = true ∧
    70000 > tOpenBoth.mSendBufferSize ∧
    tOpenBoth.IsInputChannelOpen locM = true ∧
    100 < tOpenBoth.mReceiveBufferSize ∧
    (tOpenBoth.Send ⟨fun _ => true⟩ 70000 locU locM = ⟨false, []⟩ ∧
     tOpenBoth.Receive ⟨true, 10, ⟨[192, 168, 1, 9], 9999⟩⟩ 100 5 locM locU =
       ⟨false, 5, locU, []⟩) :=
  ⟨by decide, by decide, by decide, by decide,
   send_receive_size_bounds_rejected tOpenBoth ⟨fun _ => true⟩
     ⟨true, 10, ⟨[192, 168, 1, 9], 9999⟩⟩ 70000 100 5 locU locM locM locU
     (by decide) (by decide) (by decide) (by decide)⟩

/-! ## Claim C8 -/

/-- C8: a receiver resource whose construction failed to open its input
channel has unbound closures; every Receive call returns false and never
invokes the transport Receive (empty forwarded trace, out-parameters
untouched), and every SupportsLocator call returns false. -/
theorem invalid_receiver_resource_inert
    (l : Locator) (t : UDPv4Transport) (renv : ReceiveEnv)
    (cap sizeIn : Nat) (originIn candidate : Locator) :
    (makeReceiverResource false l).Receive t renv cap sizeIn originIn =
      ⟨false, sizeIn, originIn, []⟩ ∧
    (makeReceiverResource false l).SupportsLocator t candidate = false := by
  exact ⟨rfl, rfl⟩

/-! ## Claim C9 -/

/-- C9: when Receive fails one of its preconditions (input channel not open,
or capacity below the configured receive bound), it returns false with both
out-parameters exactly as the caller passed them and no asynchronous receive
submitted. -/
theorem receive_precondition_failure_leaves_outparams
    (t : UDPv4Transport) (renv : ReceiveEnv) (cap sizeIn : Nat) (lL rIn : Locator)
    (h : t.IsInputChannelOpen lL = false ∨ cap < t.mReceiveBufferSize) :
    t.Receive renv cap sizeIn lL rIn = ⟨false, sizeIn, rIn, []⟩ := by
  rcases h with h | h
  · simp [UDPv4Transport.Receive, h]
  · simp [UDPv4Transport.Receive, h]

/-- C9 witness: a fresh transport has no open channel on port 7400, and a
Receive there leaves outSize = 5 and the remote locator untouched. -/
theorem receive_precondition_failure_leaves_outparams_witness :
    (tFresh.IsInputChannelOpen locU = false ∨ 200 < tFresh.mReceiveBufferSize) ∧
    tFresh.Receive ⟨true, 10, ⟨[192, 168, 1, 9], 9999⟩⟩ 200 5 locU locM =
      ⟨false, 5, locM, []⟩ :=
  ⟨Or.inl (by decide),
   receive_precondition_failure_leaves_outparams tFresh ⟨true, 10, ⟨[192, 168, 1, 9], 9999⟩⟩
     200 5 locU locM (Or.inl (by decide))⟩

/-! ## Claim C10 -/

/-- C10: calling OpenInputChannel on a multicast-range locator whose channel is
already open returns false, leaves the pool untouched, and still performs a
multicast group join on the existing socket (the failing call is not
side-effect-free). Stated under a join that raises no OS error. -/
theorem openInputChannel_already_open_multicast_joins
    (t : UDPv4Transport) (env : OSEnv) (l : Locator)
    (hMc : IsMulticastAddress l = true)
    (hOpen : t.IsInputChannelOpen l = true)
    (hJoin : env.joinOk = true) :
    t.OpenInputChannel env l = ⟨.returns false, t, [l]⟩ := by
  have hSup : IsLocatorSupported l = true := by
    have h2 := hOpen
    simp [UDPv4Transport.IsInputChannelOpen, Bool.and_eq_true] at h2
    exact h2.1
  simp [UDPv4Transport.OpenInputChannel, hSup, hOpen, hMc, hJoin]

/-- C10 witness: on the transport with the multicast channel of locM (port
7401) already open, a second OpenInputChannel returns false, keeps the state,
and joins the group of locM. -/
theorem openInputChannel_already_open_multicast_joins_witness :
    IsMulticastAddress locM = true ∧
    tOpenBoth.IsInputChannelOpen locM = true ∧
    envAllOk.joinOk = true ∧
    tOpenBoth.OpenInputChannel envAllOk locM = ⟨.returns false, tOpenBoth, [locM]⟩ :=
  ⟨by decide, by decide, by decide,
   openInputChannel_already_open_multicast_joins tOpenBoth envAllOk locM
     (by decide) (by decide) (by decide)⟩

/-! ## Input channel lemmas shared by several claims -/

theorem openAndBindInput_ok_state
    (t : UDPv4Transport) (env : OSEnv) (l : Locator)
    (hSup : IsLocatorSupported l = true) (hBind : env.inputBindOk l.port = true) :
    ((t.OpenAndBindInputSockets env l.port).2).IsInputChannelOpen l = true := by
  simp [UDPv4Transport.OpenAndBindInputSockets, hBind, UDPv4Transport.IsInputChannelOpen,
        hSup, hasKey_insertNew_self]

theorem openInput_returns_true_state
    (t : UDPv4Transport) (env : OSEnv) (l : Locator)
    (hRet : (t.OpenInputChannel env l).outcome = .returns true) :
    (t.OpenInputChannel env l).state.IsInputChannelOpen l = true := by
  by_cases hSup : IsLocatorSupported l = true
  · by_cases hOpen : t.IsInputChannelOpen l = true
    · by_cases hMc : IsMulticastAddress l = true <;>
        by_cases hJ : env.joinOk = true <;>
          simp [UDPv4Transport.OpenInputChannel, hSup, hOpen, hMc, hJ] at hRet ⊢
    · have hOpen' : t.IsInputChannelOpen l = false := by simpa using hOpen
      by_cases hBind : env.inputBindOk l.port = true
      · have hSt := openAndBindInput_ok_state t env l hSup hBind
        by_cases hMc : IsMulticastAddress l = true <;>
          by_cases hJ : env.joinOk = true <;>
            simp [UDPv4Transport.OpenInputChannel, hSup, hOpen', hMc, hJ, hSt] at hRet ⊢
      · have hBind' : env.inputBindOk l.port = false := by simpa using hBind
        have hSt : ((t.OpenAndBindInputSockets env l.port).2).IsInputChannelOpen l = false := by
          simp [UDPv4Transport.OpenAndBindInputSockets, hBind',
                UDPv4Transport.IsInputChannelOpen, hasKey_eraseKey_self]
        have hR1 : (t.OpenAndBindInputSockets env l.port).1 = false := by
          simp [UDPv4Transport.OpenAndBindInputSockets, hBind']
        simp [UDPv4Transport.OpenInputChannel, hSup, hOpen', hSt, hR1] at hRet
  · simp [UDPv4Transport.OpenInputChannel, hSup] at hRet

theorem closeInput_not_open (t : UDPv4Transport) (l : Locator)
    (h : t.IsInputChannelOpen l = false) : t.CloseInputChannel l = (false, t) := by
  simp [UDPv4Transport.CloseInputChannel, h]

theorem closeInput_not_open_after (t : UDPv4Transport) (l : Locator)
    (h : t.IsInputChannelOpen l = true) :
    ((t.CloseInputChannel l).2).IsInputChannelOpen l = false := by
  simp only [UDPv4Transport.CloseInputChannel, h, Bool.not_true, Bool.false_eq_true, if_false]
  simp [UDPv4Transport.IsInputChannelOpen, hasKey_eraseKey_self]

theorem closeOutput_not_open_after (t : UDPv4Transport) (l : Locator)
    (h : t.IsOutputChannelOpen l = true) :
    ((t.CloseOutputChannel l).2).IsOutputChannelOpen l = false := by
  simp only [UDPv4Transport.CloseOutputChannel, h, Bool.not_true, Bool.false_eq_true, if_false]
  by_cases hg : t.mGranularMode = true
  · simp [hg, UDPv4Transport.IsOutputChannelOpen, hasKey_eraseKey_self]
  · have hg' : t.mGranularMode = false := by simpa using hg
    simp [hg', UDPv4Transport.IsOutputChannelOpen, hasKey_eraseKey_self]

theorem closeInput_state_idem (t : UDPv4Transport) (l : Locator) :
    (((t.CloseInputChannel l).2).CloseInputChannel l).2 = (t.CloseInputChannel l).2 := by
  by_cases h : t.IsInputChannelOpen l = true
  · have hClosed := closeInput_not_open_after t l h
    set t2 := (t.CloseInputChannel l).2 with ht2
    simp [UDPv4Transport.CloseInputChannel, hClosed]
  · have h' : t.IsInputChannelOpen l = false := by simpa using h
    simp [closeInput_not_open t l h']

/-! ## Claim C3 -/

/-- C3 counterexample: on a fresh transport, opening the input channel of the
multicast locator 239.255.0.1:7401 in an environment where the bind succeeds
but the group join raises an OS error does not return true: the set_option
exception escapes the call (outcome throws) even though the bind succeeded
(the channel is open in the final state). -/
theorem openInputChannel_multicast_join_failure_escapes :
    (tFresh.OpenInputChannel envJoinFails locM).outcome = CallOutcome.throws ∧
    (tFresh.OpenInputChannel envJoinFails locM).state.IsInputChannelOpen locM = true := by
  decide

/-- C3 amended: for a supported multicast-range locator whose channel is not
yet open and whose bind succeeds, the return value of OpenInputChannel never
consults the join outcome: when the join raises no OS error the call returns
true; but a join that raises an OS error escapes the call as an exception (the
join is attempted in both cases). -/
theorem openInputChannel_multicast_join_behavior
    (t : UDPv4Transport) (env : OSEnv) (l : Locator)
    (hSup : IsLocatorSupported l = true)
    (hMc : IsMulticastAddress l = true)
    (hNotOpen : t.IsInputChannelOpen l = false)
    (hBind : env.inputBindOk l.port = true) :
    (t.OpenInputChannel env l).outcome =
      (if env.joinOk then CallOutcome.returns true else CallOutcome.throws) ∧
    (t.OpenInputChannel env l).joins = [l] := by
  have hSt := openAndBindInput_ok_state t env l hSup hBind
  have hR1 : (t.OpenAndBindInputSockets env l.port).1 = true := by
    simp [UDPv4Transport.OpenAndBindInputSockets, hBind]
  by_cases hJ : env.joinOk = true
  · simp [UDPv4Transport.OpenInputChannel, hSup, hMc, hNotOpen, hJ, hSt, hR1]
  · have hJ' : env.joinOk = false := by simpa using hJ
    simp [UDPv4Transport.OpenInputChannel, hSup, hMc, hNotOpen, hJ', hSt, hR1]

/-- C3 witness: the amended theorem at a fresh transport, the multicast
locator 239.255.0.1:7401 and an environment whose join succeeds: the call
returns true and the group was joined. -/
theorem openInputChannel_multicast_join_behavior_witness :
    IsLocatorSupported locM = true ∧
    IsMulticastAddress locM = true ∧
    tFresh.IsInputChannelOpen locM = false ∧
    envAllOk.inputBindOk locM.port = true ∧
    ((tFresh.OpenInputChannel envAllOk locM).outcome =
      (if envAllOk.joinOk then CallOutcome.returns true else CallOutcome.throws) ∧
     (tFresh.OpenInputChannel envAllOk locM).joins = [locM]) :=
  ⟨by decide, by decide, by decide, by decide,
   openInputChannel_multicast_join_behavior tFresh envAllOk locM
     (by decide) (by decide) (by decide) (by decide)⟩

/-! ## Claim C6 -/

/-- C6: for every locator whose OpenInputChannel call returns true, the channel
is then reported open by IsInputChannelOpen, and a subsequent CloseInputChannel
returns true and leaves the channel reported closed. -/
theorem openInputChannel_isOpen_close_roundtrip
    (t : UDPv4Transport) (env : OSEnv) (l : Locator)
    (hRet : (t.OpenInputChannel env l).outcome = .returns true) :
    (t.OpenInputChannel env l).state.IsInputChannelOpen l = true ∧
    ((t.OpenInputChannel env l).state.CloseInputChannel l).1 = true ∧
    ((t.OpenInputChannel env l).state.CloseInputChannel l).2.IsInputChannelOpen l = false := by
  have h1 := openInput_returns_true_state t env l hRet
  refine ⟨h1, ?_, ?_⟩
  · simp [UDPv4Transport.CloseInputChannel, h1]
  · exact closeInput_not_open_after _ l h1

/-- C6 witness: on a fresh transport, opening the input channel of the unicast
locator 192.168.1.5:7400 returns true; the round trip then reports open, closes
with true, and reports closed. -/
theorem openInputChannel_isOpen_close_roundtrip_witness :
    (tFresh.OpenInputChannel envAllOk locU).outcome = .returns true ∧
    ((tFresh.OpenInputChannel envAllOk locU).state.IsInputChannelOpen locU = true ∧
     ((tFresh.OpenInputChannel envAllOk locU).state.CloseInputChannel locU).1 = true ∧
     ((tFresh.OpenInputChannel envAllOk locU).state.CloseInputChannel locU).2.IsInputChannelOpen locU = false) :=
  ⟨by decide, openInputChannel_isOpen_close_roundtrip tFresh envAllOk locU (by decide)⟩

/-! ## Claim C7 -/

/-- C7: for an open input channel and an open output channel, the matching
close operation returns true the first time and false the second time, the
second call leaving the pool state unchanged; and running the receiver resource
destructor after an explicit Abort leaves the transport pool state exactly as
Abort left it. -/
theorem close_idempotent_and_destroy_after_abort
    (t : UDPv4Transport) (li lo : Locator) (res : ReceiverResource)
    (hIn : t.IsInputChannelOpen li = true)
    (hOut : t.IsOutputChannelOpen lo = true) :
    (t.CloseInputChannel li).1 = true ∧
    ((t.CloseInputChannel li).2.CloseInputChannel li) = (false, (t.CloseInputChannel li).2) ∧
    (t.CloseOutputChannel lo).1 = true ∧
    ((t.CloseOutputChannel lo).2.CloseOutputChannel lo) = (false, (t.CloseOutputChannel lo).2) ∧
    res.destroy (res.Abort t) = res.Abort t := by
  refine ⟨?_, ?_, ?_, ?_, ?_⟩
  · simp [UDPv4Transport.CloseInputChannel, hIn]
  · have hClosed := closeInput_not_open_after t li hIn
    set t2 := (t.CloseInputChannel li).2 with ht2
    simp [UDPv4Transport.CloseInputChannel, hClosed]
  · by_cases hg : t.mGranularMode = true <;>
      simp [UDPv4Transport.CloseOutputChannel, hOut, hg]
  · have hClosed := closeOutput_not_open_after t lo hOut
    set t2 := (t.CloseOutputChannel lo).2 with ht2
    simp [UDPv4Transport.CloseOutputChannel, hClosed]
  · cases hb : res.boundChannel with
    | none => simp [ReceiverResource.destroy, ReceiverResource.Abort, hb]
    | some l =>
        simp [ReceiverResource.destroy, ReceiverResource.Abort, hb, closeInput_state_idem]

/-- C7 witness: the double-close and destructor-after-abort behavior on the
transport with the input channel 7401 and output channel 7400 open, with a
valid receiver resource bound to the input channel. -/
theorem close_idempotent_and_destroy_after_abort_witness :
    tOpenBoth.IsInputChannelOpen locM = true ∧
    tOpenBoth.IsOutputChannelOpen locU = true ∧
    ((tOpenBoth.CloseInputChannel locM).1 = true ∧
     ((tOpenBoth.CloseInputChannel locM).2.CloseInputChannel locM) =
       (false, (tOpenBoth.CloseInputChannel locM).2) ∧
     (tOpenBoth.CloseOutputChannel locU).1 = true ∧
     ((tOpenBoth.CloseOutputChannel locU).2.CloseOutputChannel locU) =
       (false, (tOpenBoth.CloseOutputChannel locU).2) ∧
     (makeReceiverResource true locM).destroy ((makeReceiverResource true locM).Abort tOpenBoth) =
       (makeReceiverResource true locM).Abort tOpenBoth) :=
  ⟨by decide, by decide,
   close_idempotent_and_destroy_after_abort tOpenBoth locM locU (makeReceiverResource true locM)
     (by decide) (by decide)⟩

/-! ## Output channel lemmas shared by C1 and C4 -/

theorem bindAllowedSockets_all_ok (env : OSEnv) (t : UDPv4Transport) (port : Nat)
    (ips : List IPv4) (h : ∀ ip, env.outputBindOk ip port = true) :
    bindAllowedSockets env t port ips =
      some ((ips.filter (fun ip => t.IsInterfaceAllowed ip)).map
        (fun ip => ⟨ip, port⟩)) := by
  induction ips with
  | nil => simp [bindAllowedSockets]
  | cons ip rest ih =>
      by_cases ha : t.IsInterfaceAllowed ip = true
      · simp [bindAllowedSockets, ha, h ip, ih]
      · have ha' : t.IsInterfaceAllowed ip = false := by simpa using ha
        simp [bindAllowedSockets, ha', ih]

theorem bindAllowedSockets_eq_none (env : OSEnv) (t : UDPv4Transport) (port : Nat)
    (ips : List IPv4) :
    bindAllowedSockets env t port ips = none ↔
      ips.any (fun ip => t.IsInterfaceAllowed ip && !(env.outputBindOk ip port)) = true := by
  induction ips with
  | nil => simp [bindAllowedSockets]
  | cons ip rest ih =>
      by_cases ha : t.IsInterfaceAllowed ip = true
      · by_cases hb : env.outputBindOk ip port = true
        · simp [bindAllowedSockets, ha, hb, ih]
        · have hb' : env.outputBindOk ip port = false := by simpa using hb
          simp [bindAllowedSockets, ha, hb']
      · have ha' : t.IsInterfaceAllowed ip = false := by simpa using ha
        simp [bindAllowedSockets, ha', ih]

theorem notOpen_shared_no_entry (t : UDPv4Transport) (l : Locator)
    (hShared : t.mGranularMode = false) (hSup : IsLocatorSupported l = true)
    (hNotOpen : t.IsOutputChannelOpen l = false) :
    hasKey t.mOutputSockets l.port = false := by
  simpa [UDPv4Transport.IsOutputChannelOpen, hSup, hShared] using hNotOpen

/-! ## Claim C1 -/

/-- C1 counterexample: in shared mode with the 2-entry whitelist {10.0.0.1,
10.0.0.2}, on a host whose only IPv4 interface is 10.0.0.1, opening the output
channel on port 7400 succeeds but creates exactly 1 socket, not the 2 the claim
promises for a 2-entry whitelist: sockets are created per allowed host
interface, not per whitelist entry. -/
theorem openOutput_whitelist_socket_count_counterexample :
    (tWhitelist2.OpenOutputChannel envOneInterface locU).1 = true ∧
    ((findKey (tWhitelist2.OpenOutputChannel envOneInterface locU).2.mOutputSockets
        7400).getD []).length = 1 ∧
    ¬ ((findKey (tWhitelist2.OpenOutputChannel envOneInterface locU).2.mOutputSockets
        7400).getD []).length = 2 := by
  decide

/-- C1 amended: in shared mode, opening an output channel on a supported,
not-yet-open locator with every bind succeeding returns true and creates
exactly the sockets described by expectedSharedOutputSockets: one wildcard
socket when the whitelist is empty, and one socket per host IPv4 interface
passing IsInterfaceAllowed when it is non-empty (2 sockets for a 2-entry
whitelist exactly when the allowed host interfaces number 2); when that
socket list is empty (no host interface allowed) the call still returns true
but leaves no pool entry at all. -/
theorem openOutput_shared_creates_expected_sockets
    (t : UDPv4Transport) (env : OSEnv) (l : Locator)
    (hShared : t.mGranularMode = false)
    (hSup : IsLocatorSupported l = true)
    (hNotOpen : t.IsOutputChannelOpen l = false)
    (hBinds : ∀ ip, env.outputBindOk ip l.port = true) :
    (t.OpenOutputChannel env l).1 = true ∧
    findKey (t.OpenOutputChannel env l).2.mOutputSockets l.port =
      (if expectedSharedOutputSockets env t l.port = [] then none
       else some (expectedSharedOutputSockets env t l.port)) := by
  have hNoKey := notOpen_shared_no_entry t l hShared hSup hNotOpen
  have hFind : findKey t.mOutputSockets l.port = none := by
    cases hf : findKey t.mOutputSockets l.port with
    | none => rfl
    | some v => simp [hasKey, hf] at hNoKey
  by_cases hW : t.mInterfaceWhiteList.isEmpty = true
  · simp [UDPv4Transport.OpenOutputChannel, hNotOpen, hSup, hShared,
          UDPv4Transport.OpenAndBindOutputSockets, hW, hBinds anyAddr,
          findKey_setEntry_self, hFind, expectedSharedOutputSockets]
  · have hW' : t.mInterfaceWhiteList.isEmpty = false := by simpa using hW
    have hBA := bindAllowedSockets_all_ok env t l.port env.sysInterfaces hBinds
    cases hfl : env.sysInterfaces.filter (fun ip => t.IsInterfaceAllowed ip) with
    | nil =>
        rw [hfl] at hBA
        simp [UDPv4Transport.OpenOutputChannel, hNotOpen, hSup, hShared,
              UDPv4Transport.OpenAndBindOutputSockets, hW', hBA, hFind,
              expectedSharedOutputSockets, hfl]
    | cons ip rest =>
        rw [hfl] at hBA
        simp [UDPv4Transport.OpenOutputChannel, hNotOpen, hSup, hShared,
              UDPv4Transport.OpenAndBindOutputSockets, hW', hBA, hFind,
              findKey_setEntry_self, expectedSharedOutputSockets, hfl]

/-- C1 witness: with the 2-entry whitelist {10.0.0.1, 10.0.0.2} on a host
having exactly those two interfaces, opening the output channel on port 7400
creates exactly the 2 whitelisted sockets; the per-hypothesis facts are
discharged at these concrete inputs. -/
theorem openOutput_shared_creates_expected_sockets_witness :
    tWhitelist2.mGranularMode = false ∧
    IsLocatorSupported locU = true ∧
    tWhitelist2.IsOutputChannelOpen locU = false ∧
    ((tWhitelist2.OpenOutputChannel envAllOk locU).1 = true ∧
     findKey (tWhitelist2.OpenOutputChannel envAllOk locU).2.mOutputSockets locU.port =
       (if expectedSharedOutputSockets envAllOk tWhitelist2 locU.port = [] then none
        else some (expectedSharedOutputSockets envAllOk tWhitelist2 locU.port))) ∧
    (expectedSharedOutputSockets envAllOk tWhitelist2 locU.port).length = 2 :=
  ⟨by decide, by decide, by decide,
   openOutput_shared_creates_expected_sockets tWhitelist2 envAllOk locU
     (by decide) (by decide) (by decide) (fun ip => rfl),
   by decide⟩

/-! ## Claim C4 -/

/-- C4: whenever an OS-level bind error occurs while opening an output channel
(in shared or granular topology), OpenOutputChannel returns false and the
final transport state equals the initial one: the partial pool entry for the
channel key is erased, so no half-populated entry is left behind. -/
theorem openOutput_bind_failure_rolls_back
    (t : UDPv4Transport) (env : OSEnv) (l : Locator)
    (hErr : outputBindErrorOccurs env t l = true) :
    (t.OpenOutputChannel env l).1 = false ∧ (t.OpenOutputChannel env l).2 = t := by
  by_cases hOpen : t.IsOutputChannelOpen l = true
  · simp [UDPv4Transport.OpenOutputChannel, hOpen]
  · have hOpen' : t.IsOutputChannelOpen l = false := by simpa using hOpen
    by_cases hSup : IsLocatorSupported l = true
    · by_cases hg : t.mGranularMode = true
      · have hNoKey : hasKey t.mGranularOutputSockets l = false := by
          simpa [UDPv4Transport.IsOutputChannelOpen, hSup, hg] using hOpen'
        simp [outputBindErrorOccurs, hg] at hErr
        obtain ⟨hAllowed, hBindFail⟩ := hErr
        simp [UDPv4Transport.OpenOutputChannel, hOpen', hSup, hg,
              UDPv4Transport.OpenAndBindGranularOutputSocket, hAllowed, hBindFail,
              eraseKey_of_not_hasKey _ _ hNoKey]
        rw [← hg]
      · have hg' : t.mGranularMode = false := by simpa using hg
        have hNoKey := notOpen_shared_no_entry t l hg' hSup hOpen'
        simp [outputBindErrorOccurs, hg'] at hErr
        by_cases hW : t.mInterfaceWhiteList.isEmpty = true
        · simp [sharedBindErrorOccurs, hW] at hErr
          simp [UDPv4Transport.OpenOutputChannel, hOpen', hSup, hg',
                UDPv4Transport.OpenAndBindOutputSockets, hW, hErr,
                eraseKey_of_not_hasKey _ _ hNoKey]
          rw [← hg']
        · have hW' : t.mInterfaceWhiteList.isEmpty = false := by simpa using hW
          simp [sharedBindErrorOccurs, hW'] at hErr
          have hNone : bindAllowedSockets env t l.port env.sysInterfaces = none := by
            rw [bindAllowedSockets_eq_none]
            simpa using hErr
          simp [UDPv4Transport.OpenOutputChannel, hOpen', hSup, hg',
                UDPv4Transport.OpenAndBindOutputSockets, hW', hNone,
                eraseKey_of_not_hasKey _ _ hNoKey]
          rw [← hg']
    · have hSup' : IsLocatorSupported l = false := by simpa using hSup
      simp [UDPv4Transport.OpenOutputChannel, hSup']

/-- C4 witness: on a fresh shared-mode transport in an environment where every
bind fails, opening the output channel on port 7400 reports failure and leaves
the transport state exactly as it was. -/
theorem openOutput_bind_failure_rolls_back_witness :
    outputBindErrorOccurs envBindFails tFresh locU = true ∧
    ((tFresh.OpenOutputChannel envBindFails locU).1 = false ∧
     (tFresh.OpenOutputChannel envBindFails locU).2 = tFresh) :=
  ⟨by decide, openOutput_bind_failure_rolls_back tFresh envBindFails locU (by decide)⟩

/-! ## Claim C2 -/

/-- C2 counterexample: for the unsupported remote locator with kind 2 (UDPv6)
and port 7400, RemoteToMainLocal does not keep the remote kind and port: the
unsupported branch returns a bool-converted locator of kind 1 and port 0, so
the claim "for every locator remote, the result keeps kind and port and zeroes
the address" fails at this input. -/
theorem remoteToMainLocal_not_universally_preserving :
    ¬ ((RemoteToMainLocal ⟨2, 7400, List.replicate 16 1⟩).kind = 2 ∧
       (RemoteToMainLocal ⟨2, 7400, List.replicate 16 1⟩).port = 7400 ∧
       (RemoteToMainLocal ⟨2, 7400, List.replicate 16 1⟩).address = List.replicate 16 0) := by
  decide

/-- C2 amended: for every supported remote locator (UDPv4 kind),
RemoteToMainLocal keeps the kind and the port and zeroes the 16-byte address;
an unsupported remote instead yields the bool-converted default locator. -/
theorem remoteToMainLocal_supported_preserves_kind_port
    (remote : Locator) (h : IsLocatorSupported remote = true) :
    (RemoteToMainLocal remote).kind = remote.kind ∧
    (RemoteToMainLocal remote).port = remote.port ∧
    (RemoteToMainLocal remote).address = List.replicate 16 0 := by
  simp [RemoteToMainLocal, h]

/-- C2 witness: the amended theorem evaluated at a concrete supported
locator. -/
theorem remoteToMainLocal_supported_preserves_kind_port_witness :
    IsLocatorSupported ⟨1, 7400, List.replicate 16 3⟩ = true ∧
    ((RemoteToMainLocal ⟨1, 7400, List.replicate 16 3⟩).kind = (1 : Int) ∧
     (RemoteToMainLocal ⟨1, 7400, List.replicate 16 3⟩).port = 7400 ∧
     (RemoteToMainLocal ⟨1, 7400, List.replicate 16 3⟩).address = List.replicate 16 0) :=
  ⟨by decide, remoteToMainLocal_supported_preserves_kind_port ⟨1, 7400, List.replicate 16 3⟩ (by decide)⟩
